import Mathlib

/-!
Verification of `src/tools/screenshot.ts`: the two screenshot tool handlers
(`handleScreenshotPage`, `handleScreenshotByUid`) and the shared response
builder (`buildScreenshotResponse`).

The module's external collaborators (the response helpers, the UID error
helper, the base64 codec of `Buffer`, `path.resolve`, `fs.writeFile`, and the
browser-automation handle obtained via `getFirefox`) are not part of the
source file; they are modelled from the specification and, where their exact
behaviour is unknown, kept as parameters of an environment record `Env`.
-/

namespace Screenshot

/-- A JavaScript value, as far as the handlers inspect one: `undefined`
(also standing for an absent property), a string, or any non-string value
together with its truthiness. -/
inductive JsVal where
  | undef
  | str (s : String)
  | nonString (truthy : Bool)
deriving DecidableEq

/-- Modelled from the spec: the standard base64 alphabet used by the external
`Buffer` codec ("decode the base64 string into raw bytes" / re-encode). -/
def b64Alphabet : List Char :=
  "ABCDEFGHIJKLMNOPQRSTUVWXYZabcdefghijklmnopqrstuvwxyz0123456789+/".data

/-- The alphabet character for a sextet value. -/
def b64Char (n : Nat) : Char := b64Alphabet.getD n 'A'

/-- The sextet value of an alphabet character (64 when not in the alphabet). -/
def b64Index (c : Char) : Nat := b64Alphabet.findIdx (fun x => x == c)

/-- Modelled from the spec: base64 encoding of a byte list (bytes are `Nat`
values below 256), producing the canonical padded character stream. -/
def encodeBase64 : List Nat → List Char
  | [] => []
  | [a] => [b64Char (a / 4), b64Char (a % 4 * 16), '=', '=']
  | [a, b] => [b64Char (a / 4), b64Char (a % 4 * 16 + b / 16), b64Char (b % 16 * 4), '=']
  | a :: b :: c :: rest =>
      b64Char (a / 4) :: b64Char (a % 4 * 16 + b / 16) ::
      b64Char (b % 16 * 4 + c / 64) :: b64Char (c % 64) :: encodeBase64 rest

/-- Modelled from the spec: base64 decoding of a character stream back into
the byte list ("decode the base64 string into raw bytes"). -/
def decodeBase64 : List Char → List Nat
  | c1 :: c2 :: c3 :: c4 :: rest =>
      if c3 = '=' then
        [b64Index c1 * 4 + b64Index c2 / 16]
      else if c4 = '=' then
        [b64Index c1 * 4 + b64Index c2 / 16, b64Index c2 % 16 * 16 + b64Index c3 / 4]
      else
        (b64Index c1 * 4 + b64Index c2 / 16) ::
        (b64Index c2 % 16 * 16 + b64Index c3 / 4) ::
        (b64Index c3 % 4 * 64 + b64Index c4) :: decodeBase64 rest
  | _ => []

/-- Does the list `s` start with the list `pat`? -/
def listStartsWith : List Char → List Char → Bool
  | _, [] => true
  | [], _ :: _ => false
  | a :: as, b :: bs => a == b && listStartsWith as bs

/-- Does the list `s` contain `pat` as a contiguous segment? -/
def listContains : List Char → List Char → Bool
  | [], pat => listStartsWith [] pat
  | c :: rest, pat => listStartsWith (c :: rest) pat || listContains rest pat

/-- Does the string `s` contain the string `pat` as a substring? -/
def strContains (s pat : String) : Bool := listContains s.data pat.data

/-- The uniform response envelope: an error flag plus the message text. -/
structure McpToolResponse where
  isError : Bool
  text : String
deriving DecidableEq

/-- Modelled from the spec: `successResponse` from the shared response-helpers
collaborator wraps a message in the uniform success envelope. -/
def successResponse (msg : String) : McpToolResponse := ⟨false, msg⟩

/-- Modelled from the spec: `errorResponse` from the shared response-helpers
collaborator wraps an error description in the uniform error envelope. -/
def errorResponse (msg : String) : McpToolResponse := ⟨true, msg⟩

/-- The caller-visible file system: a mapping from absolute paths to the byte
contents last written there. -/
def FS := String → Option (List Nat)

/-- Writing a file: the path now maps to the new bytes, others are unchanged. -/
def updateFS (fs : FS) (path : String) (bytes : List Nat) : FS :=
  fun p => if p = path then some bytes else fs p

/-- The environment of one handler call: the two externally configured size
constants of `TOKEN_LIMITS`, and the outcomes of each external effect
(`path.resolve`, `fs.writeFile`, `getFirefox`, and the two capture calls of
the automation collaborator). -/
structure Env where
  MAX_SCREENSHOT_CHARS : Nat
  WARNING_THRESHOLD_CHARS : Nat
  resolve : String → String
  writeErr : Option String
  getFirefoxErr : Option String
  takeScreenshotPage : Except String JsVal
  takeScreenshotByUid : String → Except String JsVal

/-- Message of the save-to-file success envelope. -/
def savedMessage (label : String) (sizeKB : Nat) (absolutePath : String) : String :=
  "📸 " ++ label ++ " (" ++ toString sizeKB ++ "KB) saved to " ++ absolutePath

/-- Message of the truncated inline success envelope. -/
def truncatedMessage (label : String) (sizeKB : Nat) (truncatedData : String) : String :=
  "📸 " ++ label ++ " (" ++ toString sizeKB ++ "KB) [truncated]\n" ++ truncatedData

/-- Message of the plain or large inline success envelope. -/
def inlineMessage (label : String) (sizeKB : Nat) (warn data : String) : String :=
  "📸 " ++ label ++ " (" ++ toString sizeKB ++ "KB)" ++ warn ++ "\n" ++ data

/-- Message of the error thrown when the file write fails; it names the
caller-supplied target path and the underlying cause. -/
def writeFileMessage (filePath cause : String) : String :=
  "Failed to save screenshot to " ++ filePath ++ ": " ++ cause

/-- The inline (no file path) part of `buildScreenshotResponse`: the size
check against `MAX_SCREENSHOT_CHARS` with truncation, else the `[large]`
warning against `WARNING_THRESHOLD_CHARS`. -/
def inlineScreenshotResponse (env : Env) (fs : FS) (base64Png label : String)
    (sizeKB : Nat) : Except String (McpToolResponse × FS) :=
  if base64Png.length > env.MAX_SCREENSHOT_CHARS then
    let truncatedData := String.mk (base64Png.data.take env.MAX_SCREENSHOT_CHARS)
    .ok (successResponse (truncatedMessage label sizeKB truncatedData), fs)
  else
    let warn := if base64Png.length > env.WARNING_THRESHOLD_CHARS then " [large]" else ""
    .ok (successResponse (inlineMessage label sizeKB warn base64Png), fs)

/-- `buildScreenshotResponse(base64Png, label, filePath?)`. `sizeKB` is
`Math.round(base64Png.length / 1024)`, here `(length + 512) / 1024` in `Nat`.
The JS truthiness test `if (filePath)` takes the save branch only for a
present, non-empty path; the write either updates the file system or throws
the descriptive error. A thrown error is the `.error` case. -/
def buildScreenshotResponse (env : Env) (fs : FS) (base64Png label : String)
    (filePath : Option String) : Except String (McpToolResponse × FS) :=
  let sizeKB := (base64Png.length + 512) / 1024
  match filePath with
  | some fp =>
    if fp.isEmpty then inlineScreenshotResponse env fs base64Png label sizeKB
    else
      let absolutePath := env.resolve fp
      let buffer := decodeBase64 base64Png.data
      match env.writeErr with
      | none =>
          .ok (successResponse (savedMessage label sizeKB absolutePath),
               updateFS fs absolutePath buffer)
      | some cause => .error (writeFileMessage fp cause)
  | none => inlineScreenshotResponse env fs base64Png label sizeKB

/-- The guard `!base64Png || typeof base64Png !== 'string'` applied to the
capture result: `some s` exactly when the result is a non-empty string. -/
def validCaptureData : JsVal → Option String
  | .str s => if s.isEmpty then none else some s
  | _ => none

/-- The `await getFirefox()` step (including the dynamic import), which either
yields the automation handle or throws. -/
def getFirefoxResult (env : Env) : Except String Unit :=
  match env.getFirefoxErr with
  | none => .ok ()
  | some e => .error e

/-- Modelled from the spec: `handleUidError` from the UID-helpers collaborator
rewrites lookup-related failures (e.g. "element not found") into a message
referencing the UID; other errors pass through unchanged. -/
def handleUidError (errMsg uid : String) : String :=
  if strContains errMsg "not found" then
    "Element with uid " ++ uid ++ " not found. Take a new snapshot."
  else errMsg

/-- The body of `handleScreenshotPage` inside its try block: acquire the
handle, capture the page, validate the data, build the response. The
destructuring `(args as { filePath?: string }) || {}` is modelled by taking
the extracted optional `filePath` directly. -/
def handleScreenshotPageBody (env : Env) (fs : FS) (filePath : Option String) :
    Except String (McpToolResponse × FS) := do
  let _ ← getFirefoxResult env
  let raw ← env.takeScreenshotPage
  match validCaptureData raw with
  | none => .error "Invalid screenshot data"
  | some base64Png => buildScreenshotResponse env fs base64Png "page" filePath

/-- `handleScreenshotPage`: the body wrapped in the outer try/catch that turns
any thrown error into the uniform error envelope. -/
def handleScreenshotPage (env : Env) (fs : FS) (filePath : Option String) :
    McpToolResponse × FS :=
  match handleScreenshotPageBody env fs filePath with
  | .ok r => r
  | .error e => (errorResponse e, fs)

/-- The inner try block of `handleScreenshotByUid`: capture the element by
UID, validate the data, build the response. -/
def handleScreenshotByUidInner (env : Env) (fs : FS) (uid : String)
    (filePath : Option String) : Except String (McpToolResponse × FS) := do
  let raw ← env.takeScreenshotByUid uid
  match validCaptureData raw with
  | none => .error "Invalid screenshot data"
  | some base64Png => buildScreenshotResponse env fs base64Png uid filePath

/-- The body of `handleScreenshotByUid` inside its outer try block: the
`!uid || typeof uid !== 'string'` guard, the `getFirefox` step, then the inner
try whose catch rethrows through `handleUidError`. -/
def handleScreenshotByUidBody (env : Env) (fs : FS) (uid : JsVal)
    (filePath : Option String) : Except String (McpToolResponse × FS) :=
  match uid with
  | .str s =>
      if s.isEmpty then .error "uid required"
      else do
        let _ ← getFirefoxResult env
        match handleScreenshotByUidInner env fs s filePath with
        | .ok r => .ok r
        | .error e => .error (handleUidError e s)
  | _ => .error "uid required"

/-- `handleScreenshotByUid`: the body wrapped in the outer try/catch that
turns any thrown error into the uniform error envelope. -/
def handleScreenshotByUid (env : Env) (fs : FS) (uid : JsVal)
    (filePath : Option String) : McpToolResponse × FS :=
  match handleScreenshotByUidBody env fs uid filePath with
  | .ok r => r
  | .error e => (errorResponse e, fs)

/-- The guard `!uid || typeof uid !== 'string'` of `handleScreenshotByUid`:
true exactly when the request must be rejected with "uid required". -/
def uidInvalid : JsVal → Bool
  | .str s => s.isEmpty
  | _ => true

/-- The empty file system used in concrete instances. -/
def fs0 : FS := fun _ => none

/-- A concrete environment whose file write fails with "disk full". -/
def envW : Env where
  MAX_SCREENSHOT_CHARS := 8
  WARNING_THRESHOLD_CHARS := 4
  resolve := fun p => "/abs/" ++ p
  writeErr := some "disk full"
  getFirefoxErr := none
  takeScreenshotPage := .ok (.str "AAAA")
  takeScreenshotByUid := fun _ => .ok (.str "AAAA")

/-- A concrete environment whose element capture fails with a lookup error. -/
def envNF : Env where
  MAX_SCREENSHOT_CHARS := 8
  WARNING_THRESHOLD_CHARS := 4
  resolve := fun p => "/abs/" ++ p
  writeErr := none
  getFirefoxErr := none
  takeScreenshotPage := .ok (.str "AAAA")
  takeScreenshotByUid := fun _ => .error "element not found"

/-- A concrete environment whose captures resolve to the empty string. -/
def envE : Env where
  MAX_SCREENSHOT_CHARS := 8
  WARNING_THRESHOLD_CHARS := 4
  resolve := fun p => "/abs/" ++ p
  writeErr := some "disk full"
  getFirefoxErr := none
  takeScreenshotPage := .ok (.str "")
  takeScreenshotByUid := fun _ => .ok (.str "")

/-- Sixty bytes of value 7: a concrete payload whose base64 encoding is
longer than the save-to-file success message. -/
def b60 : List Nat := List.replicate 60 7

/-- A concrete environment: limits 8/4, successful effects. -/
def env0 : Env where
  MAX_SCREENSHOT_CHARS := 8
  WARNING_THRESHOLD_CHARS := 4
  resolve := fun p => "/abs/" ++ p
  writeErr := none
  getFirefoxErr := none
  takeScreenshotPage := .ok (.str "AAAA")
  takeScreenshotByUid := fun _ => .ok (.str "AAAA")

theorem b64Index_b64Char_fin : ∀ n : Fin 64, b64Index (b64Char n.val) = n.val := by decide

theorem b64Index_b64Char {n : Nat} (h : n < 64) : b64Index (b64Char n) = n :=
  b64Index_b64Char_fin ⟨n, h⟩

theorem b64Char_ne_pad_fin : ∀ n : Fin 64, b64Char n.val ≠ '=' := by decide

theorem b64Char_ne_pad {n : Nat} (h : n < 64) : b64Char n ≠ '=' :=
  b64Char_ne_pad_fin ⟨n, h⟩

theorem decode_encode : ∀ l : List Nat, (∀ x ∈ l, x < 256) →
    decodeBase64 (encodeBase64 l) = l
  | [], _ => rfl
  | [a], h => by
      have ha : a < 256 := h a (by simp)
      simp only [encodeBase64, decodeBase64]
      rw [b64Index_b64Char (by omega), b64Index_b64Char (by omega), if_pos trivial]
      have e1 : a / 4 * 4 + a % 4 * 16 / 16 = a := by omega
      rw [e1]
  | [a, b], h => by
      have ha : a < 256 := h a (by simp)
      have hb : b < 256 := h b (by simp)
      simp only [encodeBase64, decodeBase64]
      rw [if_neg (b64Char_ne_pad (by omega)), if_pos trivial]
      rw [b64Index_b64Char (by omega), b64Index_b64Char (by omega),
        b64Index_b64Char (by omega)]
      have e1 : a / 4 * 4 + (a % 4 * 16 + b / 16) / 16 = a := by omega
      have e2 : (a % 4 * 16 + b / 16) % 16 * 16 + b % 16 * 4 / 4 = b := by omega
      rw [e1, e2]
  | a :: b :: c :: rest, h => by
      have ha : a < 256 := h a (by simp)
      have hb : b < 256 := h b (by simp)
      have hc : c < 256 := h c (by simp)
      have ih := decode_encode rest (fun x hx => h x (by simp [hx]))
      simp only [encodeBase64, decodeBase64]
      rw [if_neg (b64Char_ne_pad (by omega)), if_neg (b64Char_ne_pad (by omega))]
      rw [b64Index_b64Char (by omega), b64Index_b64Char (by omega),
        b64Index_b64Char (by omega), b64Index_b64Char (by omega), ih]
      have e1 : a / 4 * 4 + (a % 4 * 16 + b / 16) / 16 = a := by omega
      have e2 : (a % 4 * 16 + b / 16) % 16 * 16 + (b % 16 * 4 + c / 64) / 4 = b := by omega
      have e3 : (b % 16 * 4 + c / 64) % 4 * 64 + c % 64 = c := by omega
      rw [e1, e2, e3]

theorem listStartsWith_append (pat r : List Char) :
    listStartsWith (pat ++ r) pat = true := by
  induction pat with
  | nil => simp [listStartsWith]
  | cons a as ih => simp [listStartsWith, ih]

theorem listContains_of_startsWith :
    ∀ s pat : List Char, listStartsWith s pat = true → listContains s pat = true
  | [], _, h => h
  | _ :: _, _, h => by simp [listContains, h]

theorem listContains_append (l pat r : List Char) :
    listContains (l ++ pat ++ r) pat = true := by
  induction l with
  | nil =>
      exact listContains_of_startsWith _ _ (listStartsWith_append pat r)
  | cons c cs ih =>
      simp only [List.cons_append]
      rw [listContains, Bool.or_eq_true]
      exact Or.inr ih

theorem length_le_of_startsWith :
    ∀ s pat : List Char, listStartsWith s pat = true → pat.length ≤ s.length
  | _, [], _ => Nat.zero_le _
  | [], _ :: _, h => by simp [listStartsWith] at h
  | a :: as, b :: bs, h => by
      rw [listStartsWith, Bool.and_eq_true] at h
      have := length_le_of_startsWith as bs h.2
      simp only [List.length_cons]
      omega

theorem length_le_of_contains :
    ∀ s pat : List Char, listContains s pat = true → pat.length ≤ s.length
  | [], pat, h => length_le_of_startsWith [] pat h
  | c :: rest, pat, h => by
      rw [listContains, Bool.or_eq_true] at h
      rcases h with h1 | h2
      · exact length_le_of_startsWith _ pat h1
      · have := length_le_of_contains rest pat h2
        simp only [List.length_cons]
        omega

theorem strContains_of_decomp {s pat : String} {l r : List Char}
    (h : s.data = l ++ pat.data ++ r) : strContains s pat = true := by
  rw [strContains, h]
  exact listContains_append l pat.data r

theorem strContains_false_of_longer {s pat : String}
    (h : pat.data.length > s.data.length) : strContains s pat = false := by
  cases hc : strContains s pat with
  | false => rfl
  | true =>
      have := length_le_of_contains s.data pat.data hc
      omega

theorem string_length_data (s : String) : s.length = s.data.length := rfl

/-- Claim C1 (counterexample): at the boundary where the base64 string's
length equals `MAX_SCREENSHOT_CHARS` (a valid base64 string of six zero
bytes, with the limits configured as 8/4), `buildScreenshotResponse` without
a file path returns the "[large]" message containing the full data; the
message is not annotated "[truncated]", so "at or above the hard maximum"
does not yield the truncated response. -/
theorem C1_boundary_not_truncated :
    ("AAAAAAAA" : String) = String.mk (encodeBase64 [0, 0, 0, 0, 0, 0]) ∧
    ("AAAAAAAA" : String).length ≥ env0.MAX_SCREENSHOT_CHARS ∧
    buildScreenshotResponse env0 fs0 "AAAAAAAA" "page" none =
      .ok (successResponse (inlineMessage "page" 0 " [large]" "AAAAAAAA"), fs0) ∧
    strContains (inlineMessage "page" 0 " [large]" "AAAAAAAA") "[truncated]" = false :=
  ⟨by decide, by decide, rfl, by decide⟩

/-- Claim C1 (amended): for every base64 string whose character length is
strictly above `MAX_SCREENSHOT_CHARS`, `buildScreenshotResponse` called
without a file path returns a success envelope whose message is annotated
"[truncated]" and whose emitted data is a prefix of the input of exactly
`MAX_SCREENSHOT_CHARS` characters. -/
theorem C1_truncated (env : Env) (fs : FS) (s label : String)
    (h : s.length > env.MAX_SCREENSHOT_CHARS) :
    buildScreenshotResponse env fs s label none =
      .ok (successResponse (truncatedMessage label ((s.length + 512) / 1024)
        (String.mk (s.data.take env.MAX_SCREENSHOT_CHARS))), fs) ∧
    (String.mk (s.data.take env.MAX_SCREENSHOT_CHARS)).length =
      env.MAX_SCREENSHOT_CHARS ∧
    s.data.take env.MAX_SCREENSHOT_CHARS ++ s.data.drop env.MAX_SCREENSHOT_CHARS =
      s.data := by
  refine ⟨?_, ?_, List.take_append_drop _ _⟩
  · simp only [buildScreenshotResponse, inlineScreenshotResponse]
    rw [if_pos h]
  · rw [String.length_mk, List.length_take]
    rw [string_length_data] at h
    omega

/-- Claim C1 (witness). -/
theorem C1_truncated_witness :
    buildScreenshotResponse env0 fs0 "AAAAAAAAAA" "page" none =
      .ok (successResponse (truncatedMessage "page" 0 (String.mk ("AAAAAAAAAA".data.take 8))), fs0) ∧
    (String.mk ("AAAAAAAAAA".data.take 8)).length = 8 ∧
    "AAAAAAAAAA".data.take 8 ++ "AAAAAAAAAA".data.drop 8 = "AAAAAAAAAA".data :=
  C1_truncated env0 fs0 "AAAAAAAAAA" "page" (by decide)

/-- Claim C6: for every base64 string whose character length is strictly
between `WARNING_THRESHOLD_CHARS` and `MAX_SCREENSHOT_CHARS`,
`buildScreenshotResponse` without a file path returns a success envelope
whose message is annotated " [large]" and contains the full, untruncated
input string. -/
theorem C6_large (env : Env) (fs : FS) (s label : String)
    (h1 : s.length > env.WARNING_THRESHOLD_CHARS)
    (h2 : s.length < env.MAX_SCREENSHOT_CHARS) :
    buildScreenshotResponse env fs s label none =
      .ok (successResponse (inlineMessage label ((s.length + 512) / 1024)
        " [large]" s), fs) ∧
    strContains (inlineMessage label ((s.length + 512) / 1024) " [large]" s)
      "[large]" = true ∧
    ∃ l, (inlineMessage label ((s.length + 512) / 1024) " [large]" s).data =
      l ++ s.data := by
  refine ⟨?_, ?_, ?_⟩
  · simp only [buildScreenshotResponse, inlineScreenshotResponse]
    rw [if_neg (by omega), if_pos h1]
  · apply strContains_of_decomp (l := ("📸 " ++ label ++ " (" ++
      toString ((s.length + 512) / 1024) ++ "KB)" ++ " ").data)
      (r := ("\n" ++ s).data)
    have hsp : (" [large]" : String) = " " ++ "[large]" := rfl
    simp [inlineMessage, hsp]
  · exact ⟨("📸 " ++ label ++ " (" ++ toString ((s.length + 512) / 1024) ++
      "KB)" ++ " [large]" ++ "\n").data, by simp [inlineMessage]⟩

/-- Claim C6 (witness). -/
theorem C6_large_witness :
    buildScreenshotResponse env0 fs0 "AAAAAA" "page" none =
      .ok (successResponse (inlineMessage "page" 0 " [large]" "AAAAAA"), fs0) ∧
    strContains (inlineMessage "page" 0 " [large]" "AAAAAA") "[large]" = true ∧
    ∃ l, (inlineMessage "page" 0 " [large]" "AAAAAA").data = l ++ "AAAAAA".data :=
  C6_large env0 fs0 "AAAAAA" "page" (by decide) (by decide)

/-- Claim C8: when `filePath` is supplied but is the empty string,
`buildScreenshotResponse` does not take the save-to-file branch: it behaves
exactly as if no file path were supplied. -/
theorem C8_emptyFilePath (env : Env) (fs : FS) (s label : String) :
    buildScreenshotResponse env fs s label (some "") =
      buildScreenshotResponse env fs s label none := rfl

/-- Claim C9: the size annotation in every success message is
`Math.round(length of the original base64 input / 1024)` kilobytes
(`(length + 512) / 1024` in `Nat`), computed from the full input before any
truncation; in particular the "[truncated]" message reports the size of the
original untruncated data. -/
theorem C9_sizeKB (env : Env) (fs : FS) (s label fp : String) :
    (env.writeErr = none → fp.isEmpty = false →
      buildScreenshotResponse env fs s label (some fp) =
        .ok (successResponse (savedMessage label ((s.length + 512) / 1024)
          (env.resolve fp)),
        updateFS fs (env.resolve fp) (decodeBase64 s.data))) ∧
    (s.length > env.MAX_SCREENSHOT_CHARS →
      buildScreenshotResponse env fs s label none =
        .ok (successResponse (truncatedMessage label ((s.length + 512) / 1024)
          (String.mk (s.data.take env.MAX_SCREENSHOT_CHARS))), fs)) ∧
    (s.length ≤ env.MAX_SCREENSHOT_CHARS →
      buildScreenshotResponse env fs s label none =
        .ok (successResponse (inlineMessage label ((s.length + 512) / 1024)
          (if s.length > env.WARNING_THRESHOLD_CHARS then " [large]" else "") s),
        fs)) := by
  refine ⟨fun hw hfp => ?_, fun h => ?_, fun h => ?_⟩
  · simp only [buildScreenshotResponse, hw]
    rw [if_neg (by simp [hfp])]
  · simp only [buildScreenshotResponse, inlineScreenshotResponse]
    rw [if_pos h]
  · simp only [buildScreenshotResponse, inlineScreenshotResponse]
    rw [if_neg (by omega)]

/-- Claim C9 (witness). -/
theorem C9_sizeKB_witness :
    buildScreenshotResponse env0 fs0 "AAAAAAAAAA" "shot" (some "x.png") =
      .ok (successResponse (savedMessage "shot" 0 "/abs/x.png"),
        updateFS fs0 "/abs/x.png" (decodeBase64 "AAAAAAAAAA".data)) ∧
    buildScreenshotResponse env0 fs0 "AAAAAAAAAA" "shot" none =
      .ok (successResponse (truncatedMessage "shot" 0
        (String.mk ("AAAAAAAAAA".data.take 8))), fs0) ∧
    buildScreenshotResponse env0 fs0 "AA" "shot" none =
      .ok (successResponse (inlineMessage "shot" 0 "" "AA"), fs0) :=
  ⟨(C9_sizeKB env0 fs0 "AAAAAAAAAA" "shot" "x.png").1 rfl (by decide),
   (C9_sizeKB env0 fs0 "AAAAAAAAAA" "shot" "x.png").2.1 (by decide),
   (C9_sizeKB env0 fs0 "AA" "shot" "x.png").2.2 (by decide)⟩

/-- Claim C5: `buildScreenshotResponse` never returns a failure envelope from
the size-check branches — without a file path it always returns a success
envelope — and only the file-write branch can fail; it fails by throwing
(the `.error` case) with a message naming the target path and the underlying
cause, not by returning an error envelope. -/
theorem C5_branches (env : Env) (fs : FS) (s label fp cause : String) :
    (∃ msg, buildScreenshotResponse env fs s label none =
      .ok (successResponse msg, fs)) ∧
    (fp.isEmpty = false → env.writeErr = some cause →
      buildScreenshotResponse env fs s label (some fp) =
        .error (writeFileMessage fp cause)) ∧
    (writeFileMessage fp cause).data =
      "Failed to save screenshot to ".data ++ fp.data ++ ": ".data ++ cause.data := by
  refine ⟨?_, fun hfp hw => ?_, by simp [writeFileMessage]⟩
  · simp only [buildScreenshotResponse, inlineScreenshotResponse]
    by_cases h : s.length > env.MAX_SCREENSHOT_CHARS
    · exact ⟨_, by rw [if_pos h]⟩
    · exact ⟨_, by rw [if_neg h]⟩
  · simp only [buildScreenshotResponse, hw]
    rw [if_neg (by simp [hfp])]

/-- Claim C5 (witness). -/
theorem C5_branches_witness :
    (∃ msg, buildScreenshotResponse envW fs0 "AA" "page" none =
      .ok (successResponse msg, fs0)) ∧
    buildScreenshotResponse envW fs0 "AA" "page" (some "x.png") =
      .error (writeFileMessage "x.png" "disk full") :=
  ⟨(C5_branches envW fs0 "AA" "page" "x.png" "disk full").1,
   (C5_branches envW fs0 "AA" "page" "x.png" "disk full").2.1 (by decide) rfl⟩

/-- Claim C2: for every byte payload, writing its base64 encoding through
`buildScreenshotResponse` with a file path stores the decoded bytes at the
resolved absolute path; the success message names that absolute path and does
not embed the base64 data; and re-encoding the stored file contents yields
exactly the original base64 string (round-trip). -/
theorem C2_saveRoundTrip (env : Env) (fs : FS) (bytes : List Nat)
    (label fp : String) (hb : ∀ x ∈ bytes, x < 256) (hfp : fp.isEmpty = false)
    (hw : env.writeErr = none) :
    buildScreenshotResponse env fs (String.mk (encodeBase64 bytes)) label
        (some fp) =
      .ok (successResponse (savedMessage label
          (((String.mk (encodeBase64 bytes)).length + 512) / 1024)
          (env.resolve fp)),
        updateFS fs (env.resolve fp) bytes) ∧
    updateFS fs (env.resolve fp) bytes (env.resolve fp) = some bytes ∧
    encodeBase64 (decodeBase64 (String.mk (encodeBase64 bytes)).data) =
      (String.mk (encodeBase64 bytes)).data ∧
    (∃ l, (savedMessage label (((String.mk (encodeBase64 bytes)).length + 512) / 1024)
      (env.resolve fp)).data = l ++ (env.resolve fp).data) ∧
    ((encodeBase64 bytes).length >
        (savedMessage label (((String.mk (encodeBase64 bytes)).length + 512) / 1024)
          (env.resolve fp)).data.length →
      strContains (savedMessage label
          (((String.mk (encodeBase64 bytes)).length + 512) / 1024)
          (env.resolve fp))
        (String.mk (encodeBase64 bytes)) = false) := by
  have hd : decodeBase64 (String.mk (encodeBase64 bytes)).data = bytes :=
    decode_encode bytes hb
  refine ⟨?_, by simp [updateFS], ?_, ?_, fun hlen => ?_⟩
  · simp only [buildScreenshotResponse, hw, hd]
    rw [if_neg (by simp [hfp])]
  · rw [hd]
  · exact ⟨("📸 " ++ label ++ " (" ++
      toString (((String.mk (encodeBase64 bytes)).length + 512) / 1024) ++
      "KB) saved to ").data, by simp [savedMessage]⟩
  · exact strContains_false_of_longer hlen

/-- Claim C2 (witness). -/
theorem C2_saveRoundTrip_witness :
    buildScreenshotResponse env0 fs0 (String.mk (encodeBase64 b60)) "elt"
        (some "x.png") =
      .ok (successResponse (savedMessage "elt"
          (((String.mk (encodeBase64 b60)).length + 512) / 1024) "/abs/x.png"),
        updateFS fs0 "/abs/x.png" b60) ∧
    updateFS fs0 "/abs/x.png" b60 "/abs/x.png" = some b60 ∧
    encodeBase64 (decodeBase64 (String.mk (encodeBase64 b60)).data) =
      (String.mk (encodeBase64 b60)).data ∧
    strContains (savedMessage "elt"
        (((String.mk (encodeBase64 b60)).length + 512) / 1024) "/abs/x.png")
      (String.mk (encodeBase64 b60)) = false := by
  have h := C2_saveRoundTrip env0 fs0 b60 "elt" "x.png" (by decide) (by decide) rfl
  exact ⟨h.1, h.2.1, h.2.2.1, h.2.2.2.2 (by decide)⟩

/-- Claim C3: for every input and environment, both handlers are total and
every failure of the body (input validation, handle acquisition, capture,
invalid capture data, file write) is converted at the outermost boundary into
the uniform error envelope; a successful body is returned unchanged. -/
theorem C3_neverRaise (env : Env) (fs : FS) (fp : Option String) (uid : JsVal) :
    ((∃ e, handleScreenshotPageBody env fs fp = .error e ∧
        handleScreenshotPage env fs fp = (errorResponse e, fs) ∧
        (errorResponse e).isError = true) ∨
      (∃ r, handleScreenshotPageBody env fs fp = .ok r ∧
        handleScreenshotPage env fs fp = r)) ∧
    ((∃ e, handleScreenshotByUidBody env fs uid fp = .error e ∧
        handleScreenshotByUid env fs uid fp = (errorResponse e, fs) ∧
        (errorResponse e).isError = true) ∨
      (∃ r, handleScreenshotByUidBody env fs uid fp = .ok r ∧
        handleScreenshotByUid env fs uid fp = r)) := by
  constructor
  · cases h : handleScreenshotPageBody env fs fp with
    | error e => exact Or.inl ⟨e, rfl, by simp [handleScreenshotPage, h], rfl⟩
    | ok r => exact Or.inr ⟨r, rfl, by simp [handleScreenshotPage, h]⟩
  · cases h : handleScreenshotByUidBody env fs uid fp with
    | error e => exact Or.inl ⟨e, rfl, by simp [handleScreenshotByUid, h], rfl⟩
    | ok r => exact Or.inr ⟨r, rfl, by simp [handleScreenshotByUid, h]⟩

/-- Claim C4: for every request in which `uid` is the empty string, absent
(`undefined`), or not a string, `handleScreenshotByUid` returns the error
envelope with message "uid required", for every behaviour of the automation
collaborator — so the collaborator is never consulted. -/
theorem C4_uidRequired (env : Env) (fs : FS) (uid : JsVal) (fp : Option String)
    (h : uidInvalid uid = true) :
    handleScreenshotByUid env fs uid fp = (errorResponse "uid required", fs) ∧
    ∀ cap : String → Except String JsVal,
      handleScreenshotByUid { env with takeScreenshotByUid := cap } fs uid fp =
        (errorResponse "uid required", fs) := by
  have key : ∀ e : Env,
      handleScreenshotByUid e fs uid fp = (errorResponse "uid required", fs) := by
    intro e
    cases uid with
    | str s =>
        have hs : s.isEmpty = true := by simpa [uidInvalid] using h
        simp [handleScreenshotByUid, handleScreenshotByUidBody, hs]
    | undef => rfl
    | nonString t => rfl
  exact ⟨key env, fun cap => key _⟩

/-- Claim C4 (witness). -/
theorem C4_uidRequired_witness :
    handleScreenshotByUid env0 fs0 (.str "") none =
      (errorResponse "uid required", fs0) ∧
    ∀ cap : String → Except String JsVal,
      handleScreenshotByUid { env0 with takeScreenshotByUid := cap } fs0
        (.str "") none = (errorResponse "uid required", fs0) :=
  C4_uidRequired env0 fs0 (.str "") none (by decide)

/-- Claim C7: in `handleScreenshotByUid`, a failure of the capture call is
passed through `handleUidError` before surfacing, so a lookup failure (an
error mentioning "not found") for an unknown uid yields an error envelope
whose message references that uid. -/
theorem C7_captureErrTranslated (env : Env) (fs : FS) (uid : String)
    (fp : Option String) (m : String) (hu : uid.isEmpty = false)
    (hg : env.getFirefoxErr = none)
    (hc : env.takeScreenshotByUid uid = .error m) :
    handleScreenshotByUid env fs (.str uid) fp =
      (errorResponse (handleUidError m uid), fs) ∧
    (strContains m "not found" = true →
      ∃ l r, (handleUidError m uid).data = l ++ uid.data ++ r) := by
  constructor
  · simp [handleScreenshotByUid, handleScreenshotByUidBody,
      handleScreenshotByUidInner, getFirefoxResult, bind, Except.bind,
      hu, hg, hc]
  · intro hnf
    refine ⟨"Element with uid ".data, " not found. Take a new snapshot.".data, ?_⟩
    simp [handleUidError, hnf]

/-- Claim C7 (witness). -/
theorem C7_captureErrTranslated_witness :
    handleScreenshotByUid envNF fs0 (.str "e42") none =
      (errorResponse (handleUidError "element not found" "e42"), fs0) ∧
    ∃ l r, (handleUidError "element not found" "e42").data =
      l ++ "e42".data ++ r := by
  have h := C7_captureErrTranslated envNF fs0 "e42" none "element not found"
    (by decide) rfl rfl
  exact ⟨h.1, h.2 (by decide)⟩

/-- Claim C10: in `handleScreenshotByUid`, the "Invalid screenshot data"
validation failure and a file-write failure raised by
`buildScreenshotResponse` are also passed through `handleUidError` before the
error envelope is built, while in `handleScreenshotPage` the same failures
reach the envelope untranslated. -/
theorem C10_innerFailuresTranslated (env : Env) (fs : FS)
    (uid fp s cause : String) (hu : uid.isEmpty = false)
    (hg : env.getFirefoxErr = none) (hfp : fp.isEmpty = false) :
    (env.takeScreenshotByUid uid = .ok (.str s) → s.isEmpty = false →
      env.writeErr = some cause →
      handleScreenshotByUid env fs (.str uid) (some fp) =
        (errorResponse (handleUidError (writeFileMessage fp cause) uid), fs)) ∧
    (env.takeScreenshotByUid uid = .ok (.str "") →
      handleScreenshotByUid env fs (.str uid) (some fp) =
        (errorResponse (handleUidError "Invalid screenshot data" uid), fs)) ∧
    (env.takeScreenshotPage = .ok (.str s) → s.isEmpty = false →
      env.writeErr = some cause →
      handleScreenshotPage env fs (some fp) =
        (errorResponse (writeFileMessage fp cause), fs)) ∧
    (env.takeScreenshotPage = .ok (.str "") →
      handleScreenshotPage env fs (some fp) =
        (errorResponse "Invalid screenshot data", fs)) := by
  have he : ("" : String).isEmpty = true := rfl
  refine ⟨fun hc hs hw => ?_, fun hc => ?_, fun hc hs hw => ?_, fun hc => ?_⟩
  · simp [handleScreenshotByUid, handleScreenshotByUidBody,
      handleScreenshotByUidInner, getFirefoxResult, buildScreenshotResponse,
      validCaptureData, bind, Except.bind, hu, hg, hc, hs, hw, hfp]
  · simp [handleScreenshotByUid, handleScreenshotByUidBody,
      handleScreenshotByUidInner, getFirefoxResult, validCaptureData,
      bind, Except.bind, hu, hg, hc, he]
  · simp [handleScreenshotPage, handleScreenshotPageBody, getFirefoxResult,
      buildScreenshotResponse, validCaptureData, bind, Except.bind,
      hg, hc, hs, hw, hfp]
  · simp [handleScreenshotPage, handleScreenshotPageBody, getFirefoxResult,
      validCaptureData, bind, Except.bind, hg, hc, he]

/-- Claim C10 (witness). -/
theorem C10_innerFailuresTranslated_witness :
    handleScreenshotByUid envW fs0 (.str "e42") (some "x.png") =
      (errorResponse (handleUidError (writeFileMessage "x.png" "disk full")
        "e42"), fs0) ∧
    handleScreenshotByUid envE fs0 (.str "e42") (some "x.png") =
      (errorResponse (handleUidError "Invalid screenshot data" "e42"), fs0) ∧
    handleScreenshotPage envW fs0 (some "x.png") =
      (errorResponse (writeFileMessage "x.png" "disk full"), fs0) ∧
    handleScreenshotPage envE fs0 (some "x.png") =
      (errorResponse "Invalid screenshot data", fs0) := by
  have h1 := C10_innerFailuresTranslated envW fs0 "e42" "x.png" "AAAA"
    "disk full" (by decide) rfl (by decide)
  have h2 := C10_innerFailuresTranslated envE fs0 "e42" "x.png" "AAAA"
    "disk full" (by decide) rfl (by decide)
  exact ⟨h1.1 rfl (by decide) rfl, h2.2.1 rfl, h1.2.2.1 rfl (by decide) rfl,
    h2.2.2.2 rfl⟩

end Screenshot
